import Mathlib

/-!
Verification of `ryba/backup.py`: a shallow embedding of the three-phase
backup pipeline (mirror via rsync, hard-linked snapshot, rotation) together
with theorems checking the specified properties.

External commands, log calls and file writes are modelled as an event trace;
the single source of failure in this module, the rsync exit code, is an
explicit input.  Interfaces of collaborator modules that are not part of the
source under verification (`constants`, `targets`, `directories`, `rotators`,
`config`, `logging`) are modelled from the spec, as noted on each definition.
-/

namespace Ryba

/-- Modelled from the spec: the three verbosity levels of `logging.Verbosity`
("fully verbose", "silent", "minimal progress/summary"). -/
inductive Verbosity
  | all
  | silent
  | minimal
deriving DecidableEq

/-- Log levels used by `backup.py` (`logging.DEBUG`, `INFO`, `MESSAGE`,
`WARNING`, `ERROR`). -/
inductive Level
  | debug
  | info
  | message
  | warning
  | error
deriving DecidableEq

/-- Modelled from the spec: `rotators.Verdict`, one of keep or drop. -/
inductive Verdict
  | keep
  | drop
deriving DecidableEq

/-- `verdict.name` as used in the rotation log line. -/
def Verdict.vname : Verdict → String
  | .keep => "keep"
  | .drop => "drop"

/-- A timezone-aware `datetime.datetime`: civil (wall-clock) fields plus a
UTC offset in minutes.  Python datetimes have year 1–9999, microsecond
0–999999 and an offset strictly between -24h and +24h. -/
structure Timestamp where
  year : Nat
  month : Nat
  day : Nat
  hour : Nat
  minute : Nat
  second : Nat
  microsecond : Nat
  tzOffsetMinutes : Int
deriving DecidableEq

/-- Field ranges enforced by Python `datetime` (day upper bound relaxed
to 31 independent of month). -/
def Timestamp.valid (t : Timestamp) : Prop :=
  1 ≤ t.year ∧ t.year ≤ 9999 ∧ 1 ≤ t.month ∧ t.month ≤ 12 ∧
  1 ≤ t.day ∧ t.day ≤ 31 ∧ t.hour ≤ 23 ∧ t.minute ≤ 59 ∧ t.second ≤ 59 ∧
  t.microsecond ≤ 999999 ∧ -1439 ≤ t.tzOffsetMinutes ∧ t.tzOffsetMinutes ≤ 1439

instance (t : Timestamp) : Decidable t.valid := by
  unfold Timestamp.valid; infer_instance

/-- ASCII digit character for `n < 10`. -/
def digitChar (n : Nat) : Char := Char.ofNat (48 + n)

/-- Two-digit zero-padded decimal rendering (strftime `%m`, `%d`, `%H`,
`%M`, `%S`). -/
def pad2 (n : Nat) : List Char := [digitChar (n / 10), digitChar (n % 10)]

/-- Four-digit zero-padded decimal rendering (strftime `%Y` for years
1–9999). -/
def pad4 (n : Nat) : List Char := pad2 (n / 100) ++ pad2 (n % 100)

/-- Six-digit zero-padded decimal rendering (`%06d` for microseconds). -/
def pad6 (n : Nat) : List Char := pad2 (n / 10000) ++ pad2 (n / 100 % 100) ++ pad2 (n % 100)

/-- The `+HH:MM` / `-HH:MM` UTC-offset suffix `datetime.isoformat` emits for
an aware datetime with a whole-minute offset. -/
def offsetChars (off : Int) : List Char :=
  (if off < 0 then ['-'] else ['+']) ++ pad2 (off.natAbs / 60) ++ [':'] ++ pad2 (off.natAbs % 60)

/-- `timestamp.isoformat()`: `YYYY-MM-DDTHH:MM:SS[.ffffff]+HH:MM`; the
microsecond part appears only when it is nonzero. -/
def Timestamp.isoformat (t : Timestamp) : String :=
  String.mk (pad4 t.year ++ ['-'] ++ pad2 t.month ++ ['-'] ++ pad2 t.day ++ ['T'] ++
    pad2 t.hour ++ [':'] ++ pad2 t.minute ++ [':'] ++ pad2 t.second ++
    (if t.microsecond = 0 then [] else ['.'] ++ pad6 t.microsecond) ++
    offsetChars t.tzOffsetMinutes)

/-- Days from 1970-01-01 of a civil date (proleptic Gregorian), the standard
era-decomposition algorithm; used to give each aware timestamp its absolute
instant. -/
def daysFromCivil (y m d : Int) : Int :=
  let y2 : Int := if m ≤ 2 then y - 1 else y
  let era : Int := (if 0 ≤ y2 then y2 else y2 - 399) / 400
  let yoe : Int := y2 - era * 400
  let doy : Int := (153 * (if 2 < m then m - 3 else m + 9) + 2) / 5 + d - 1
  let doe : Int := yoe * 365 + yoe / 4 - yoe / 100 + doy
  era * 146097 + doe - 719468

/-- The absolute instant an aware timestamp denotes, in microseconds since
the epoch: the civil fields interpreted at the given UTC offset. -/
def Timestamp.instantMicros (t : Timestamp) : Int :=
  (daysFromCivil t.year t.month t.day * 86400 +
    t.hour * 3600 + t.minute * 60 + t.second - t.tzOffsetMinutes * 60) * 1000000 +
  t.microsecond

/-- Modelled from the spec: `targets.Backup`, a name (the snapshot directory
name) paired with the timestamp the snapshot represents. -/
structure Backup where
  name : String
  timestamp : Timestamp
deriving DecidableEq

/-- Modelled from the spec: the Rotation Policy (`directory.rotate`).
`should_rotate` is `none` for the affirmative (Python `True`) and
`some reason` for any other value, which is only logged.  `descr` is its
display string. -/
structure Rotator where
  descr : String
  should_rotate : Option String
  rotate_backups : Timestamp → List Backup → List (Backup × Verdict × String)

/-- Modelled from the spec: the target method `rsync_arguments`, turning the
resolved destination path into the rsync destination string plus any
connection arguments. -/
structure Target where
  rsync_arguments : String → String × List String

/-- Modelled from the spec: `directories.Directory` configuration values
used by `backup.py`.  `resolve_exclude_from` is the (input-determined)
result of the method of the same name; `descr` is the display string. -/
structure Directory where
  descr : String
  source_path : String
  target : Target
  target_path : String
  one_file_system : Bool
  resolve_exclude_from : Option String
  exclude_files : List String
  rotate : Option Rotator

/-- Modelled from the spec: `targets.TargetContext` — path materialisation,
existence check and backup enumeration.  Command execution and file writes
are recorded in the event trace instead. -/
structure TargetContext where
  make_path : String → String
  exists_ : String → Bool
  list_backups : String → List Backup

/-- Modelled from the spec: the configuration object; `backup.py` reads only
the verbosity from it (`config.get(logging.Verbosity)`). -/
structure Config where
  verbosity : Verbosity

/-- `exceptions.RsyncError`: carries a message and the rsync exit code. -/
structure RsyncError where
  message : String
  code : Int
deriving DecidableEq

/-- Observable actions of one backup run: log calls, the local `rsync`
invocation (`subprocess.run`), remote/target command execution
(`context.execute`), file writes (`context.write_file`) and the invocation
of the rotation policy (`rotate_backups`). -/
inductive Event
  | log (level : Level) (message : String)
  | run (command : List String)
  | exec (command : List String)
  | writeFile (path : String) (content : String)
  | classify (timestamp : Timestamp) (backups : List Backup)
deriving DecidableEq

/-- Modelled from the spec: `constants.CURRENT_SNAPSHOT_NAME`, the fixed
well-known name of the live-mirror subdirectory. -/
def CURRENT_SNAPSHOT_NAME : String := "current"

/-- Modelled from the spec: `constants.TIMESTAMP_FILE_NAME`, the fixed name
of the marker file written inside each snapshot. -/
def TIMESTAMP_FILE_NAME : String := "timestamp"

/-- The `/` operator of `pathlib` on the paths used here. -/
def pathJoin (p n : String) : String := p ++ "/" ++ n

/-- `shlex.join` as it behaves on the argument vectors built here (none of
which require quoting). -/
def shlexJoin (cmd : List String) : String := String.intercalate " " cmd

/-- `_ensure_trailing_slash`: append a slash unless the path already ends
with one. -/
def _ensure_trailing_slash (path : String) : String :=
  if path.data.getLast? = some '/' then path else path ++ "/"

/-- `_snapshot_name`: `timestamp.strftime("snapshot-%Y-%m-%dT%H:%M:%S")`. -/
def _snapshot_name (directory : Directory) (timestamp : Timestamp) : String :=
  let _ := directory
  String.mk ("snapshot-".data ++ pad4 timestamp.year ++ ['-'] ++ pad2 timestamp.month ++
    ['-'] ++ pad2 timestamp.day ++ ['T'] ++ pad2 timestamp.hour ++ [':'] ++
    pad2 timestamp.minute ++ [':'] ++ pad2 timestamp.second)

/-- The full rsync argument vector `_send_files` builds before executing. -/
def rsyncCommand (directory : Directory) (context : TargetContext) (config : Config)
    (dry_run : Bool) : List String :=
  ["rsync", "--human-readable"] ++
  (match config.verbosity with
    | .all => ["--verbose"]
    | .silent => []
    | .minimal => ["--info=progress2,stats"]) ++
  (if dry_run then ["--dry-run"] else []) ++
  ["--delete-after", "--delete-excluded",
   "--acls", "--archive", "--hard-links", "--fuzzy", "--fuzzy",
   "--numeric-ids", "--xattrs"] ++
  (if directory.one_file_system then ["--one-file-system"] else []) ++
  (match directory.resolve_exclude_from with
    | some exclude_from => ["--exclude-from=" ++ exclude_from]
    | none => []) ++
  (directory.exclude_files.map (fun pattern => "--exclude=" ++ pattern)) ++
  (directory.target.rsync_arguments
    (context.make_path (pathJoin directory.target_path CURRENT_SNAPSHOT_NAME))).2 ++
  [_ensure_trailing_slash directory.source_path,
   _ensure_trailing_slash
     (directory.target.rsync_arguments
       (context.make_path (pathJoin directory.target_path CURRENT_SNAPSHOT_NAME))).1]

/-- `_send_files`: build the rsync command, create the destination root if
missing (skipped when dry-run), run rsync, and classify its exit code:
0/23/24 return normally (23 and 24 with a warning), anything else raises
`RsyncError` carrying the code.  `rsyncExit` is the exit code the external
rsync process returns. -/
def _send_files (directory : Directory) (context : TargetContext) (config : Config)
    (dry_run : Bool) (rsyncExit : Int) : List Event × Option RsyncError :=
  let command := rsyncCommand directory context config dry_run
  let mkdirCmd := ["mkdir", "-p", context.make_path directory.target_path]
  let mkdirEvents :=
    if context.exists_ directory.target_path then []
    else
      [Event.log Level.info ("Creating destination directory " ++ directory.target_path),
       Event.log Level.debug ("remote $ " ++ shlexJoin mkdirCmd)] ++
      (if dry_run then [] else [Event.exec mkdirCmd])
  let events := mkdirEvents ++
    [Event.log Level.info "Running rsync",
     Event.log Level.debug ("$ " ++ shlexJoin command),
     Event.run command]
  if rsyncExit = 0 ∨ rsyncExit = 23 ∨ rsyncExit = 24 then
    (events ++ [Event.log Level.info "Finished backup"] ++
      (if rsyncExit = 0 then []
       else [Event.log Level.warning
         ("Ignoring \x60partial transfer\x27 warnings (rsync exited with " ++
          toString rsyncExit ++ ").")]),
     none)
  else
    (events ++ [Event.log Level.error
        ("Backup failed! (rsync exited with " ++ toString rsyncExit ++ ")")],
     some { message := "rsync call failed", code := rsyncExit })

/-- The `cp --archive --link` clone command `_create_snapshot` issues. -/
def cloneCommand (directory : Directory) (context : TargetContext)
    (timestamp : Timestamp) : List String :=
  ["cp", "--archive", "--link", "--no-target-directory", "--force",
   context.make_path (pathJoin directory.target_path CURRENT_SNAPSHOT_NAME),
   context.make_path (pathJoin directory.target_path (_snapshot_name directory timestamp))]

/-- `_create_snapshot`: clone the current mirror to a timestamp-named
sibling with hard links and stamp it with the ISO-formatted run timestamp;
both the clone and the marker write are skipped when dry-run. -/
def _create_snapshot (directory : Directory) (context : TargetContext)
    (timestamp : Timestamp) (dry_run : Bool) : List Event :=
  let snapshot_name := _snapshot_name directory timestamp
  let snapshot := pathJoin directory.target_path snapshot_name
  let cmd := cloneCommand directory context timestamp
  [Event.log Level.info ("Creating snapshot " ++ snapshot_name),
   Event.log Level.debug ("remote $ " ++ shlexJoin cmd)] ++
  (if dry_run then []
   else
     [Event.exec cmd,
      Event.writeFile (pathJoin snapshot TIMESTAMP_FILE_NAME) timestamp.isoformat])

/-- The comparison `sorted(results)` uses, modelled from the spec: stable
ordering by backup name. -/
def resultLe (a b : Backup × Verdict × String) : Bool := a.1.name ≤ b.1.name

/-- The backup list handed to the rotation policy: the enumerated backups,
plus — on a dry run — the fictitious snapshot a normal run would have
created. -/
def rotationBackups (directory : Directory) (context : TargetContext)
    (timestamp : Timestamp) (dry_run : Bool) : List Backup :=
  context.list_backups directory.target_path ++
    (if dry_run then [{ name := _snapshot_name directory timestamp, timestamp := timestamp }]
     else [])

/-- The events one classified result contributes: the decision log line,
then — for a drop verdict outside a dry run — the recursive permission
relax followed by the recursive remove of the path of that backup. -/
def rotateEntryEvents (directory : Directory) (context : TargetContext)
    (dry_run : Bool) (r : Backup × Verdict × String) : List Event :=
  [Event.log Level.info ("  - " ++ r.1.name ++ ": " ++ r.2.1.vname ++ ". " ++ r.2.2)] ++
  (if dry_run then []
   else
     match r.2.1 with
     | Verdict.keep => []
     | Verdict.drop =>
       let entry_path := context.make_path (pathJoin directory.target_path r.1.name)
       [Event.exec ["chmod", "-R", "u+wX", entry_path],
        Event.exec ["rm", "-rf", entry_path]])

/-- `_rotate_snapshot`: skip (with an informational log) when no rotator is
configured or the rotator declines; otherwise enumerate backups, append the
synthetic dry-run backup, let the policy classify, and for each drop verdict
relax permissions then remove, unless dry-run. -/
def _rotate_snapshot (directory : Directory) (context : TargetContext)
    (timestamp : Timestamp) (dry_run : Bool) : List Event :=
  match directory.rotate with
  | none => [Event.log Level.info "Not rotating backups: no rotator configured"]
  | some rotate =>
    match rotate.should_rotate with
    | some reason => [Event.log Level.info ("Not rotating backups: " ++ reason)]
    | none =>
      let backups := rotationBackups directory context timestamp dry_run
      let results := rotate.rotate_backups timestamp backups
      [Event.log Level.info
         ("Rotating backups using \x27" ++ rotate.descr ++ "\x27 strategy"),
       Event.classify timestamp backups] ++
      (results.mergeSort resultLe).flatMap (rotateEntryEvents directory context dry_run)

/-- `backup_directory_with_context`: announce the run, then perform the
enabled phases in the fixed order send → snapshot → rotate; an `RsyncError`
raised by the send phase propagates immediately, skipping later phases. -/
def backup_directory_with_context (directory : Directory) (context : TargetContext)
    (config : Config) (timestamp : Timestamp)
    (dry_run send_files create_snapshot rotate_snapshot : Bool)
    (rsyncExit : Int) : List Event × Option RsyncError :=
  let ev0 := [Event.log Level.message ("Backing up " ++ directory.descr)]
  let send := if send_files then _send_files directory context config dry_run rsyncExit
              else ([], none)
  match send.2 with
  | some e => (ev0 ++ send.1, some e)
  | none =>
    let snapEv := if create_snapshot then _create_snapshot directory context timestamp dry_run
                  else []
    let rotEv := if rotate_snapshot then _rotate_snapshot directory context timestamp dry_run
                 else []
    (ev0 ++ send.1 ++ snapEv ++ rotEv, none)

/-! Concrete sample inputs used when checking the theorems on closed data. -/

/-- A local target: the destination string is the resolved path itself and
there are no connection arguments. -/
def sampleTarget : Target := { rsync_arguments := fun p => (p, []) }

/-- A sample run timestamp (UTC+02:00). -/
def sampleTimestamp : Timestamp :=
  { year := 2024, month := 3, day := 5, hour := 12, minute := 34, second := 56,
    microsecond := 0, tzOffsetMinutes := 120 }

/-- An earlier sample timestamp used for an existing backup. -/
def oldTimestamp : Timestamp :=
  { year := 2024, month := 3, day := 1, hour := 0, minute := 0, second := 0,
    microsecond := 0, tzOffsetMinutes := 120 }

/-- Two pre-existing backups for rotation checks. -/
def oldBackup : Backup := { name := "snapshot-2024-03-01T00:00:00", timestamp := oldTimestamp }

/-- A second pre-existing backup. -/
def newBackup : Backup := { name := "snapshot-2024-03-04T00:00:00", timestamp := oldTimestamp }

/-- A rotator that fires and drops `oldBackup`, keeping everything else. -/
def sampleRotator : Rotator :=
  { descr := "sample",
    should_rotate := none,
    rotate_backups := fun _ backups =>
      backups.map (fun b =>
        if b.name = oldBackup.name then (b, Verdict.drop, "too old")
        else (b, Verdict.keep, "recent")) }

/-- A sample directory configured with `sampleRotator`. -/
def sampleDirectory : Directory :=
  { descr := "/home to backups:/home",
    source_path := "/home",
    target := sampleTarget,
    target_path := "/backups/home",
    one_file_system := false,
    resolve_exclude_from := none,
    exclude_files := [],
    rotate := some sampleRotator }

/-- A context over an existing destination holding the two sample backups. -/
def sampleContext : TargetContext :=
  { make_path := fun p => p,
    exists_ := fun _ => true,
    list_backups := fun _ => [oldBackup, newBackup] }

/-- Minimal-verbosity configuration. -/
def sampleConfig : Config := { verbosity := Verbosity.minimal }

/-- A rotator that declines to rotate, with a stated reason. -/
def decliningRotator : Rotator :=
  { descr := "declining",
    should_rotate := some "only 2 of required 3 snapshots exist",
    rotate_backups := fun _ backups => backups.map (fun b => (b, Verdict.keep, "keep")) }

/-- `sampleDirectory` with no rotator configured. -/
def noRotateDirectory : Directory := { sampleDirectory with rotate := none }

/-- `sampleDirectory` with the declining rotator. -/
def decliningDirectory : Directory := { sampleDirectory with rotate := some decliningRotator }

/-- A timestamp at noon UTC. -/
def tsOffsetA : Timestamp :=
  { year := 2020, month := 1, day := 1, hour := 12, minute := 0, second := 0,
    microsecond := 0, tzOffsetMinutes := 0 }

/-- The same wall-clock reading one hour east of UTC: a different instant. -/
def tsOffsetB : Timestamp :=
  { year := 2020, month := 1, day := 1, hour := 12, minute := 0, second := 0,
    microsecond := 0, tzOffsetMinutes := 60 }

/-- One second after `tsOffsetA`, same offset. -/
def tsSecLater : Timestamp :=
  { year := 2020, month := 1, day := 1, hour := 12, minute := 0, second := 1,
    microsecond := 0, tzOffsetMinutes := 0 }

/-! Decoders for the two textual renderings.  They are left inverses of the
formatting functions on valid timestamps, which gives injectivity: the
snapshot name determines the wall-clock fields, and the ISO form determines
the whole timestamp including its UTC offset. -/

/-- Read two ASCII digits as a number below 100. -/
def read2 : List Char → Option (Nat × List Char)
  | c1 :: c2 :: rest => some ((c1.toNat - 48) * 10 + (c2.toNat - 48), rest)
  | _ => none

/-- Read four ASCII digits. -/
def read4 (l : List Char) : Option (Nat × List Char) :=
  (read2 l).bind fun p => (read2 p.2).map fun q => (p.1 * 100 + q.1, q.2)

/-- Read six ASCII digits. -/
def read6 (l : List Char) : Option (Nat × List Char) :=
  (read2 l).bind fun p => (read2 p.2).bind fun q =>
    (read2 q.2).map fun s => ((p.1 * 100 + q.1) * 100 + s.1, s.2)

/-- Skip one expected character. -/
def skipChar (c : Char) : List Char → Option (List Char)
  | c1 :: rest => if c1 = c then some rest else none
  | [] => none

/-- Skip an expected character sequence. -/
def skipList : List Char → List Char → Option (List Char)
  | [], l => some l
  | p :: ps, c :: cs => if c = p then skipList ps cs else none
  | _ :: _, [] => none

/-- Read the optional `.ffffff` microsecond part; absent means zero. -/
def readMicro (l : List Char) : Option (Nat × List Char) :=
  match l with
  | c :: rest => if c = '.' then read6 rest else some (0, l)
  | [] => some (0, [])

/-- Read the `±HH:MM` UTC-offset suffix. -/
def readOffset : List Char → Option (Int × List Char)
  | c :: rest =>
    if c = '-' ∨ c = '+' then
      (read2 rest).bind fun h =>
      (skipChar ':' h.2).bind fun r =>
      (read2 r).map fun m =>
        ((if c = '-' then -(h.1 * 60 + m.1 : Int) else (h.1 * 60 + m.1 : Int)), m.2)
    else none
  | [] => none

/-- Recover the six wall-clock fields from a snapshot name. -/
def decodeName (l : List Char) : Option (Nat × Nat × Nat × Nat × Nat × Nat) :=
  (skipList "snapshot-".data l).bind fun r =>
  (read4 r).bind fun y =>
  (skipChar '-' y.2).bind fun r =>
  (read2 r).bind fun mo =>
  (skipChar '-' mo.2).bind fun r =>
  (read2 r).bind fun d =>
  (skipChar 'T' d.2).bind fun r =>
  (read2 r).bind fun h =>
  (skipChar ':' h.2).bind fun r =>
  (read2 r).bind fun mi =>
  (skipChar ':' mi.2).bind fun r =>
  (read2 r).map fun s => (y.1, mo.1, d.1, h.1, mi.1, s.1)

/-- Recover a full timestamp from its ISO rendering. -/
def decodeIso (l : List Char) : Option Timestamp :=
  (read4 l).bind fun y =>
  (skipChar '-' y.2).bind fun r =>
  (read2 r).bind fun mo =>
  (skipChar '-' mo.2).bind fun r =>
  (read2 r).bind fun d =>
  (skipChar 'T' d.2).bind fun r =>
  (read2 r).bind fun h =>
  (skipChar ':' h.2).bind fun r =>
  (read2 r).bind fun mi =>
  (skipChar ':' mi.2).bind fun r =>
  (read2 r).bind fun s =>
  (readMicro s.2).bind fun us =>
  (readOffset us.2).map fun off =>
    { year := y.1, month := mo.1, day := d.1, hour := h.1, minute := mi.1,
      second := s.1, microsecond := us.1, tzOffsetMinutes := off.1 }

/-! ### Roundtrip lemmas for the textual renderings -/

theorem digitChar_toNat : ∀ n : Nat, n < 10 → (digitChar n).toNat = 48 + n := by
  decide

theorem read2_pad2 (n : Nat) (h : n < 100) (rest : List Char) :
    read2 (pad2 n ++ rest) = some (n, rest) := by
  show read2 (digitChar (n / 10) :: digitChar (n % 10) :: rest) = some (n, rest)
  simp only [read2]
  rw [digitChar_toNat (n / 10) (by omega), digitChar_toNat (n % 10) (by omega)]
  refine congrArg (fun k => some (k, rest)) ?_
  omega

theorem read4_pad4 (n : Nat) (h : n < 10000) (rest : List Char) :
    read4 (pad4 n ++ rest) = some (n, rest) := by
  simp only [pad4, read4, List.append_assoc,
    read2_pad2 (n / 100) (by omega), read2_pad2 (n % 100) (by omega),
    Option.some_bind, Option.map_some']
  refine congrArg (fun k => some (k, rest)) ?_
  omega

theorem read6_pad6 (n : Nat) (h : n < 1000000) (rest : List Char) :
    read6 (pad6 n ++ rest) = some (n, rest) := by
  simp only [pad6, read6, List.append_assoc,
    read2_pad2 (n / 10000) (by omega), read2_pad2 (n / 100 % 100) (by omega),
    read2_pad2 (n % 100) (by omega),
    Option.some_bind, Option.map_some']
  refine congrArg (fun k => some (k, rest)) ?_
  omega

theorem read2_pad2_end (n : Nat) (h : n < 100) : read2 (pad2 n) = some (n, []) := by
  have e := read2_pad2 n h []
  rwa [List.append_nil] at e

theorem skipChar_same (c : Char) (rest : List Char) :
    skipChar c (c :: rest) = some rest := by
  simp [skipChar]

theorem skipList_append (p rest : List Char) : skipList p (p ++ rest) = some rest := by
  induction p with
  | nil => rfl
  | cons c cs ih => simp [skipList, ih]

theorem readOffset_offsetChars (off : Int) (h1 : -1440 < off) (h2 : off < 1440)
    (rest : List Char) : readOffset (offsetChars off ++ rest) = some (off, rest) := by
  have ha : off.natAbs / 60 < 100 := by omega
  have hb : off.natAbs % 60 < 100 := by omega
  rcases lt_or_le off 0 with hneg | hpos
  · rw [offsetChars, if_pos hneg]
    show readOffset ('-' ::
      (pad2 (off.natAbs / 60) ++ (':' :: (pad2 (off.natAbs % 60) ++ rest)))) = _
    simp only [readOffset, read2_pad2 (off.natAbs / 60) ha, skipChar_same,
      read2_pad2 (off.natAbs % 60) hb, Option.some_bind, Option.map_some',
      true_or, or_true, if_true]
    refine congrArg (fun k => some (k, rest)) ?_
    omega
  · rw [offsetChars, if_neg (by omega : ¬ off < 0)]
    show readOffset ('+' ::
      (pad2 (off.natAbs / 60) ++ (':' :: (pad2 (off.natAbs % 60) ++ rest)))) = _
    simp only [readOffset, read2_pad2 (off.natAbs / 60) ha, skipChar_same,
      read2_pad2 (off.natAbs % 60) hb, Option.some_bind, Option.map_some',
      true_or, or_true, if_true]
    rw [if_neg (by decide : ¬ ('+' : Char) = '-')]
    refine congrArg (fun k => some (k, rest)) ?_
    omega

theorem decodeName_snapshot_name (directory : Directory) (t : Timestamp)
    (h : t.valid) :
    decodeName (_snapshot_name directory t).data =
      some (t.year, t.month, t.day, t.hour, t.minute, t.second) := by
  obtain ⟨h1, h2, h3, h4, h5, h6, h7, h8, h9, h10, h11, h12⟩ := h
  show decodeName ("snapshot-".data ++ pad4 t.year ++ ['-'] ++ pad2 t.month ++
    ['-'] ++ pad2 t.day ++ ['T'] ++ pad2 t.hour ++ [':'] ++ pad2 t.minute ++
    [':'] ++ pad2 t.second) = _
  simp only [decodeName, List.append_eq, List.append_assoc, List.cons_append,
    List.nil_append,
    skipList, if_true, read4_pad4 t.year (by omega),
    read2_pad2 t.month (by omega), read2_pad2 t.day (by omega),
    read2_pad2 t.hour (by omega), read2_pad2 t.minute (by omega),
    read2_pad2_end t.second (by omega),
    skipChar_same, Option.some_bind, Option.map_some']

theorem decodeIso_isoformat (t : Timestamp) (h : t.valid) :
    decodeIso t.isoformat.data = some t := by
  obtain ⟨h1, h2, h3, h4, h5, h6, h7, h8, h9, h10, h11, h12⟩ := h
  show decodeIso (pad4 t.year ++ ['-'] ++ pad2 t.month ++ ['-'] ++ pad2 t.day ++
    ['T'] ++ pad2 t.hour ++ [':'] ++ pad2 t.minute ++ [':'] ++ pad2 t.second ++
    (if t.microsecond = 0 then [] else ['.'] ++ pad6 t.microsecond) ++
    offsetChars t.tzOffsetMinutes) = _
  have hoff : readOffset (offsetChars t.tzOffsetMinutes ++ []) =
      some (t.tzOffsetMinutes, []) :=
    readOffset_offsetChars _ (by omega) (by omega) []
  rw [show offsetChars t.tzOffsetMinutes ++ [] = offsetChars t.tzOffsetMinutes
    by simp] at hoff
  by_cases hm : t.microsecond = 0
  · have hmicro : readMicro (offsetChars t.tzOffsetMinutes) =
        some (0, offsetChars t.tzOffsetMinutes) := by
      unfold offsetChars
      rcases lt_or_le t.tzOffsetMinutes 0 with hneg | hpos
      · rw [if_pos hneg]
        simp only [List.cons_append, readMicro]
        rw [if_neg (by decide)]
      · rw [if_neg (by omega)]
        simp only [List.cons_append, readMicro]
        rw [if_neg (by decide)]
    simp only [hm, if_true, List.append_nil, List.nil_append,
      decodeIso, List.append_assoc, List.cons_append,
      read4_pad4 t.year (by omega), read2_pad2 t.month (by omega),
      read2_pad2 t.day (by omega), read2_pad2 t.hour (by omega),
      read2_pad2 t.minute (by omega), read2_pad2 t.second (by omega),
      skipChar_same, hmicro, hoff, Option.some_bind, Option.map_some']
    rw [← hm]
  · have hmicro : readMicro ('.' :: (pad6 t.microsecond ++
        offsetChars t.tzOffsetMinutes)) =
        some (t.microsecond, offsetChars t.tzOffsetMinutes) := by
      simp only [readMicro, if_true, read6_pad6 t.microsecond (by omega)]
    simp only [if_neg hm, decodeIso, List.append_assoc, List.cons_append,
      List.nil_append,
      read4_pad4 t.year (by omega), read2_pad2 t.month (by omega),
      read2_pad2 t.day (by omega), read2_pad2 t.hour (by omega),
      read2_pad2 t.minute (by omega), read2_pad2 t.second (by omega),
      skipChar_same, hmicro, hoff, Option.some_bind, Option.map_some']

theorem snapshot_name_fields_inj {d1 d2 : Directory} {t1 t2 : Timestamp}
    (h1 : t1.valid) (h2 : t2.valid)
    (h : _snapshot_name d1 t1 = _snapshot_name d2 t2) :
    t1.year = t2.year ∧ t1.month = t2.month ∧ t1.day = t2.day ∧
    t1.hour = t2.hour ∧ t1.minute = t2.minute ∧ t1.second = t2.second := by
  have e := congrArg (fun s => decodeName s.data) h
  simp only [decodeName_snapshot_name d1 t1 h1, decodeName_snapshot_name d2 t2 h2,
    Option.some.injEq, Prod.mk.injEq] at e
  exact ⟨e.1, e.2.1, e.2.2.1, e.2.2.2.1, e.2.2.2.2.1, e.2.2.2.2.2⟩

theorem isoformat_inj {t1 t2 : Timestamp} (h1 : t1.valid) (h2 : t2.valid)
    (h : t1.isoformat = t2.isoformat) : t1 = t2 := by
  have e := congrArg (fun s => decodeIso s.data) h
  simp only [decodeIso_isoformat t1 h1, decodeIso_isoformat t2 h2,
    Option.some.injEq] at e
  exact e

/-! ### Helper lemmas about the phase traces -/

theorem send_files_snd (directory : Directory) (context : TargetContext)
    (config : Config) (dry_run : Bool) (rsyncExit : Int) :
    (_send_files directory context config dry_run rsyncExit).2 =
      if rsyncExit = 0 ∨ rsyncExit = 23 ∨ rsyncExit = 24 then none
      else some { message := "rsync call failed", code := rsyncExit } := by
  unfold _send_files
  by_cases h : rsyncExit = 0 ∨ rsyncExit = 23 ∨ rsyncExit = 24 <;> simp [h]

theorem ensure_trailing_slash_last (s : String) :
    (_ensure_trailing_slash s).data.getLast? = some '/' := by
  unfold _ensure_trailing_slash
  split
  · next h => exact h
  · show (s.data ++ ['/']).getLast? = some '/'
    exact List.getLast?_concat _

theorem run_mem_send_iff (directory : Directory) (context : TargetContext)
    (config : Config) (dry_run : Bool) (rsyncExit : Int) (c : List String) :
    Event.run c ∈ (_send_files directory context config dry_run rsyncExit).1 ↔
      c = rsyncCommand directory context config dry_run := by
  unfold _send_files
  by_cases h : rsyncExit = 0 ∨ rsyncExit = 23 ∨ rsyncExit = 24 <;>
  by_cases hx : context.exists_ directory.target_path = true <;>
  by_cases hd : dry_run = true <;>
  by_cases hz : rsyncExit = 0 <;>
    simp_all

theorem send_files_events (directory : Directory) (context : TargetContext)
    (config : Config) (dry_run : Bool) (rsyncExit : Int) :
    ∀ e ∈ (_send_files directory context config dry_run rsyncExit).1,
      (∃ l m, e = Event.log l m) ∨
      (dry_run = false ∧
        e = Event.exec ["mkdir", "-p", context.make_path directory.target_path]) ∨
      e = Event.run (rsyncCommand directory context config dry_run) := by
  intro e he
  unfold _send_files at he
  by_cases h : rsyncExit = 0 ∨ rsyncExit = 23 ∨ rsyncExit = 24 <;>
  by_cases hx : context.exists_ directory.target_path = true <;>
  by_cases hd : dry_run = true <;>
  by_cases hz : rsyncExit = 0 <;>
    simp [h, hx, hd, hz] at he <;>
    aesop

theorem create_snapshot_events (directory : Directory) (context : TargetContext)
    (timestamp : Timestamp) (dry_run : Bool) :
    ∀ e ∈ _create_snapshot directory context timestamp dry_run,
      (∃ l m, e = Event.log l m) ∨
      (dry_run = false ∧
        (e = Event.exec (cloneCommand directory context timestamp) ∨
         e = Event.writeFile
           (pathJoin (pathJoin directory.target_path
             (_snapshot_name directory timestamp)) TIMESTAMP_FILE_NAME)
           timestamp.isoformat)) := by
  intro e he
  unfold _create_snapshot at he
  by_cases hd : dry_run = true <;>
    simp [hd] at he <;>
    aesop

theorem rotate_snapshot_events (directory : Directory) (context : TargetContext)
    (timestamp : Timestamp) (dry_run : Bool) :
    ∀ e ∈ _rotate_snapshot directory context timestamp dry_run,
      (∃ l m, e = Event.log l m) ∨ (∃ ts bs, e = Event.classify ts bs) ∨
      (dry_run = false ∧ ∃ rotate b expl, directory.rotate = some rotate ∧
        (b, Verdict.drop, expl) ∈ rotate.rotate_backups timestamp
          (rotationBackups directory context timestamp dry_run) ∧
        (e = Event.exec ["chmod", "-R", "u+wX",
            context.make_path (pathJoin directory.target_path b.name)] ∨
         e = Event.exec ["rm", "-rf",
            context.make_path (pathJoin directory.target_path b.name)])) := by
  intro e he
  unfold _rotate_snapshot at he
  split at he
  · exact Or.inl ⟨_, _, List.mem_singleton.1 he⟩
  · rename_i rotate hrot
    split at he
    · exact Or.inl ⟨_, _, List.mem_singleton.1 he⟩
    · rename_i hsr
      rcases List.mem_append.1 he with he | he
      · rcases List.mem_cons.1 he with he | he
        · exact Or.inl ⟨_, _, he⟩
        · rcases List.mem_cons.1 he with he | he
          · exact Or.inr (Or.inl ⟨_, _, he⟩)
          · simp at he
      · rcases List.mem_flatMap.1 he with ⟨r, hr, her⟩
        rw [List.mem_mergeSort] at hr
        unfold rotateEntryEvents at her
        rcases List.mem_append.1 her with her | her
        · rcases List.mem_singleton.1 her with rfl
          exact Or.inl ⟨_, _, rfl⟩
        · by_cases hdry : dry_run = true
          · rw [hdry] at her; simp at her
          · have hdf : dry_run = false := by
              cases dry_run
              · rfl
              · exact absurd rfl hdry
            rw [hdf] at her
            simp only [Bool.false_eq_true, if_false] at her
            cases hv : r.2.1 with
            | keep => rw [hv] at her; simp at her
            | drop =>
              rw [hv] at her
              refine Or.inr (Or.inr ⟨hdf, rotate, r.1, r.2.2, hrot, ?_, ?_⟩)
              · have hre : (r.1, Verdict.drop, r.2.2) = r := by
                  rw [← hv]
                rw [hre]
                exact hr
              · rcases List.mem_cons.1 her with her | her
                · exact Or.inl her
                · rcases List.mem_singleton.1 her with rfl
                  exact Or.inr rfl

/-- The image of a list element is an infix of the flat map. -/
theorem flatMap_infix_of_mem {α β : Type} (f : α → List β) {a : α} {l : List α}
    (h : a ∈ l) : f a <:+: l.flatMap f := by
  induction l with
  | nil => cases h
  | cons x xs ih =>
    rw [List.flatMap_cons]
    rcases List.mem_cons.1 h with rfl | h
    · exact ((f a).prefix_append (xs.flatMap f)).isInfix
    · exact (ih h).trans (List.suffix_append (f x) (xs.flatMap f)).isInfix

theorem rotate_snapshot_fired (directory : Directory) (context : TargetContext)
    (timestamp : Timestamp) (dry_run : Bool) (rotate : Rotator)
    (h1 : directory.rotate = some rotate) (h2 : rotate.should_rotate = none) :
    _rotate_snapshot directory context timestamp dry_run =
      [Event.log Level.info
         ("Rotating backups using \x27" ++ rotate.descr ++ "\x27 strategy"),
       Event.classify timestamp (rotationBackups directory context timestamp dry_run)] ++
      ((rotate.rotate_backups timestamp
          (rotationBackups directory context timestamp dry_run)).mergeSort
        resultLe).flatMap (rotateEntryEvents directory context dry_run) := by
  simp [_rotate_snapshot, h1, h2]

theorem backup_with_context_ok (directory : Directory) (context : TargetContext)
    (config : Config) (timestamp : Timestamp)
    (dry_run send_files create_snapshot rotate_snapshot : Bool) (rsyncExit : Int)
    (h : send_files = true →
      (_send_files directory context config dry_run rsyncExit).2 = none) :
    backup_directory_with_context directory context config timestamp
        dry_run send_files create_snapshot rotate_snapshot rsyncExit =
      ([Event.log Level.message ("Backing up " ++ directory.descr)] ++
        (if send_files then (_send_files directory context config dry_run rsyncExit).1
         else []) ++
        (if create_snapshot then _create_snapshot directory context timestamp dry_run
         else []) ++
        (if rotate_snapshot then _rotate_snapshot directory context timestamp dry_run
         else []),
       none) := by
  unfold backup_directory_with_context
  by_cases hsf : send_files = true
  · rw [hsf]
    simp [h hsf]
  · have hf : send_files = false := by
      cases send_files
      · rfl
      · exact absurd rfl hsf
    rw [hf]
    simp

theorem backup_with_context_err (directory : Directory) (context : TargetContext)
    (config : Config) (timestamp : Timestamp)
    (dry_run create_snapshot rotate_snapshot : Bool) (rsyncExit : Int)
    (e : RsyncError)
    (h : (_send_files directory context config dry_run rsyncExit).2 = some e) :
    backup_directory_with_context directory context config timestamp
        dry_run true create_snapshot rotate_snapshot rsyncExit =
      ([Event.log Level.message ("Backing up " ++ directory.descr)] ++
        (_send_files directory context config dry_run rsyncExit).1, some e) := by
  unfold backup_directory_with_context
  simp [h]

theorem mem_ite_nil {α : Type} {b : Bool} {X : List α} {e : α}
    (h : e ∈ if b then X else []) : b = true ∧ e ∈ X := by
  cases b
  · simp at h
  · exact ⟨rfl, h⟩

theorem backup_trace_events (directory : Directory) (context : TargetContext)
    (config : Config) (timestamp : Timestamp)
    (dry_run send_files create_snapshot rotate_snapshot : Bool) (rsyncExit : Int) :
    ∀ e ∈ (backup_directory_with_context directory context config timestamp
        dry_run send_files create_snapshot rotate_snapshot rsyncExit).1,
      e = Event.log Level.message ("Backing up " ++ directory.descr) ∨
      (send_files = true ∧
        e ∈ (_send_files directory context config dry_run rsyncExit).1) ∨
      (create_snapshot = true ∧
        e ∈ _create_snapshot directory context timestamp dry_run) ∨
      (rotate_snapshot = true ∧
        e ∈ _rotate_snapshot directory context timestamp dry_run) := by
  intro e he
  cases hsd : (_send_files directory context config dry_run rsyncExit).2 with
  | none =>
    rw [backup_with_context_ok directory context config timestamp dry_run
      send_files create_snapshot rotate_snapshot rsyncExit (fun _ => hsd)] at he
    rcases List.mem_append.1 he with he | he
    · rcases List.mem_append.1 he with he | he
      · rcases List.mem_append.1 he with he | he
        · exact Or.inl (List.mem_singleton.1 he)
        · obtain ⟨hb, he⟩ := mem_ite_nil he
          exact Or.inr (Or.inl ⟨hb, he⟩)
      · obtain ⟨hb, he⟩ := mem_ite_nil he
        exact Or.inr (Or.inr (Or.inl ⟨hb, he⟩))
    · obtain ⟨hb, he⟩ := mem_ite_nil he
      exact Or.inr (Or.inr (Or.inr ⟨hb, he⟩))
  | some err =>
    by_cases hsf : send_files = true
    · subst hsf
      rw [backup_with_context_err directory context config timestamp dry_run
        create_snapshot rotate_snapshot rsyncExit err hsd] at he
      rcases List.mem_append.1 he with he | he
      · exact Or.inl (List.mem_singleton.1 he)
      · exact Or.inr (Or.inl ⟨rfl, he⟩)
    · have hf : send_files = false := by
        cases send_files
        · rfl
        · exact absurd rfl hsf
      subst hf
      rw [backup_with_context_ok directory context config timestamp dry_run
        false create_snapshot rotate_snapshot rsyncExit
        (fun hs => by cases hs)] at he
      rcases List.mem_append.1 he with he | he
      · rcases List.mem_append.1 he with he | he
        · rcases List.mem_append.1 he with he | he
          · exact Or.inl (List.mem_singleton.1 he)
          · obtain ⟨hb, he⟩ := mem_ite_nil he
            exact absurd hb (by decide)
        · obtain ⟨hb, he⟩ := mem_ite_nil he
          exact Or.inr (Or.inr (Or.inl ⟨hb, he⟩))
      · obtain ⟨hb, he⟩ := mem_ite_nil he
        exact Or.inr (Or.inr (Or.inr ⟨hb, he⟩))

theorem no_slash_ne {s t : String} (hs : s.data.getLast? ≠ some '/')
    (ht : t.data.getLast? = some '/') : s ≠ t := by
  intro h
  rw [h] at hs
  exact hs ht

/-! ### Claims -/

/-- C1: for every invocation of the file-transfer phase, exit codes 0, 23
and 24 from rsync return normally — with a warning logged for 23 and 24 —
while any other exit code raises an `RsyncError` carrying exactly that
code. -/
theorem C1_send_files_exit_classification
    (directory : Directory) (context : TargetContext) (config : Config)
    (dry_run : Bool) (rsyncExit : Int) :
    ((rsyncExit = 0 ∨ rsyncExit = 23 ∨ rsyncExit = 24) →
      (_send_files directory context config dry_run rsyncExit).2 = none ∧
      (rsyncExit ≠ 0 →
        Event.log Level.warning
          ("Ignoring \x60partial transfer\x27 warnings (rsync exited with " ++
            toString rsyncExit ++ ").") ∈
          (_send_files directory context config dry_run rsyncExit).1)) ∧
    (¬(rsyncExit = 0 ∨ rsyncExit = 23 ∨ rsyncExit = 24) →
      (_send_files directory context config dry_run rsyncExit).2 =
        some { message := "rsync call failed", code := rsyncExit }) := by
  refine ⟨fun h => ⟨?_, fun hne => ?_⟩, fun h => ?_⟩
  · rw [send_files_snd, if_pos h]
  · unfold _send_files
    rw [if_pos h, if_neg hne]
    simp
  · rw [send_files_snd, if_neg h]

/-- Witness for C1 at exit codes 24 (tolerated) and 11 (fatal). -/
theorem C1_witness :
    (((24 : Int) = 0 ∨ (24 : Int) = 23 ∨ (24 : Int) = 24) ∧
      (_send_files sampleDirectory sampleContext sampleConfig false 24).2 = none) ∧
    (¬((11 : Int) = 0 ∨ (11 : Int) = 23 ∨ (11 : Int) = 24) ∧
      (_send_files sampleDirectory sampleContext sampleConfig false 11).2 =
        some { message := "rsync call failed", code := 11 }) :=
  ⟨⟨by decide,
    ((C1_send_files_exit_classification sampleDirectory sampleContext sampleConfig
      false 24).1 (by decide)).1⟩,
   ⟨by decide,
    (C1_send_files_exit_classification sampleDirectory sampleContext sampleConfig
      false 11).2 (by decide)⟩⟩

/-- C8: the rotation phase only logs and returns — no enumeration,
classification, deletion or error — when no rotator is configured, and
likewise when the should-rotate check of the rotator returns a non-affirmative
value, whose rendering is logged as the skip reason. -/
theorem C8_rotation_skip (directory : Directory) (context : TargetContext)
    (timestamp : Timestamp) (dry_run : Bool) :
    (directory.rotate = none →
      _rotate_snapshot directory context timestamp dry_run =
        [Event.log Level.info "Not rotating backups: no rotator configured"]) ∧
    (∀ rotate reason, directory.rotate = some rotate →
      rotate.should_rotate = some reason →
      _rotate_snapshot directory context timestamp dry_run =
        [Event.log Level.info ("Not rotating backups: " ++ reason)]) := by
  constructor
  · intro h
    simp [_rotate_snapshot, h]
  · intro rotate reason h1 h2
    simp [_rotate_snapshot, h1, h2]

/-- Witness for C8: no rotator configured, and a declining rotator. -/
theorem C8_witness :
    (noRotateDirectory.rotate = none ∧
      _rotate_snapshot noRotateDirectory sampleContext sampleTimestamp false =
        [Event.log Level.info "Not rotating backups: no rotator configured"]) ∧
    (decliningDirectory.rotate = some decliningRotator ∧
      decliningRotator.should_rotate = some "only 2 of required 3 snapshots exist" ∧
      _rotate_snapshot decliningDirectory sampleContext sampleTimestamp false =
        [Event.log Level.info
          "Not rotating backups: only 2 of required 3 snapshots exist"]) :=
  ⟨⟨rfl, (C8_rotation_skip noRotateDirectory sampleContext sampleTimestamp false).1 rfl⟩,
   ⟨rfl, rfl,
    (C8_rotation_skip decliningDirectory sampleContext sampleTimestamp false).2
      decliningRotator "only 2 of required 3 snapshots exist" rfl rfl⟩⟩

/-- C9: a non-dry-run snapshot phase logs, clones, and then writes the
fixed-name marker file inside the new snapshot with the ISO-formatted run
timestamp as content; that rendering is injective on valid timestamps
(including the UTC offset), hence round-trippable. -/
theorem C9_snapshot_marker (directory : Directory) (context : TargetContext)
    (timestamp : Timestamp) :
    _create_snapshot directory context timestamp false =
      [Event.log Level.info
         ("Creating snapshot " ++ _snapshot_name directory timestamp),
       Event.log Level.debug
         ("remote $ " ++ shlexJoin (cloneCommand directory context timestamp)),
       Event.exec (cloneCommand directory context timestamp),
       Event.writeFile
         (pathJoin (pathJoin directory.target_path
           (_snapshot_name directory timestamp)) TIMESTAMP_FILE_NAME)
         timestamp.isoformat] ∧
    (∀ t1 t2 : Timestamp, t1.valid → t2.valid →
      t1.isoformat = t2.isoformat → t1 = t2) :=
  ⟨rfl, fun _ _ h1 h2 h => isoformat_inj h1 h2 h⟩

/-- Witness for C9 at the sample inputs; the injectivity component is
exercised on `sampleTimestamp`. -/
theorem C9_witness :
    _create_snapshot sampleDirectory sampleContext sampleTimestamp false =
      [Event.log Level.info "Creating snapshot snapshot-2024-03-05T12:34:56",
       Event.log Level.debug
         ("remote $ cp --archive --link --no-target-directory --force " ++
          "/backups/home/current /backups/home/snapshot-2024-03-05T12:34:56"),
       Event.exec ["cp", "--archive", "--link", "--no-target-directory", "--force",
         "/backups/home/current", "/backups/home/snapshot-2024-03-05T12:34:56"],
       Event.writeFile "/backups/home/snapshot-2024-03-05T12:34:56/timestamp"
         "2024-03-05T12:34:56+02:00"] ∧
    sampleTimestamp.valid ∧ sampleTimestamp = sampleTimestamp := by
  refine ⟨?_, by decide, ?_⟩
  · have h := (C9_snapshot_marker sampleDirectory sampleContext sampleTimestamp).1
    rw [h]
    rfl
  · exact (C9_snapshot_marker sampleDirectory sampleContext sampleTimestamp).2
      sampleTimestamp sampleTimestamp (by decide) (by decide) rfl

/-- C5: in a dry-run rotation that fires, the policy is asked to classify
the enumerated backups with exactly one synthetic Backup appended, whose
name is `_snapshot_name` of the run timestamp — the very name the real
clone command of the real snapshot phase targets — and whose timestamp is the run
timestamp. -/
theorem C5_dry_run_synthetic_backup (directory : Directory)
    (context : TargetContext) (timestamp : Timestamp) (rotate : Rotator)
    (h1 : directory.rotate = some rotate) (h2 : rotate.should_rotate = none) :
    Event.classify timestamp
        (context.list_backups directory.target_path ++
          [{ name := _snapshot_name directory timestamp, timestamp := timestamp }]) ∈
      _rotate_snapshot directory context timestamp true ∧
    (cloneCommand directory context timestamp).getLast? =
      some (context.make_path
        (pathJoin directory.target_path (_snapshot_name directory timestamp))) := by
  constructor
  · simp [rotate_snapshot_fired directory context timestamp true rotate h1 h2,
      rotationBackups]
  · rfl

/-- Witness for C5 at the sample rotator. -/
theorem C5_witness :
    sampleDirectory.rotate = some sampleRotator ∧
    sampleRotator.should_rotate = none ∧
    Event.classify sampleTimestamp
        (sampleContext.list_backups sampleDirectory.target_path ++
          [{ name := _snapshot_name sampleDirectory sampleTimestamp,
             timestamp := sampleTimestamp }]) ∈
      _rotate_snapshot sampleDirectory sampleContext sampleTimestamp true :=
  ⟨rfl, rfl,
   (C5_dry_run_synthetic_backup sampleDirectory sampleContext sampleTimestamp
     sampleRotator rfl rfl).1⟩

/-- C7 is refuted as stated: two timezone-aware timestamps denoting
distinct instants an hour apart (same wall clock, different UTC offsets)
receive the same snapshot name, because strftime formats only the naive
wall-clock fields. -/
theorem C7_counterexample :
    tsOffsetA.valid ∧ tsOffsetB.valid ∧
    tsOffsetA.instantMicros ≠ tsOffsetB.instantMicros ∧
    1000000 ≤ (tsOffsetA.instantMicros - tsOffsetB.instantMicros).natAbs ∧
    _snapshot_name sampleDirectory tsOffsetA =
      _snapshot_name sampleDirectory tsOffsetB :=
  ⟨by decide, by decide, by decide, by decide, rfl⟩

/-- C7 (amended): for timestamps with the same UTC offset, instants at
least one second apart always receive distinct snapshot names. -/
theorem C7_snapshot_name_unique (d1 d2 : Directory) (t1 t2 : Timestamp)
    (h1 : t1.valid) (h2 : t2.valid)
    (hoff : t1.tzOffsetMinutes = t2.tzOffsetMinutes)
    (hsec : 1000000 ≤ (t1.instantMicros - t2.instantMicros).natAbs) :
    _snapshot_name d1 t1 ≠ _snapshot_name d2 t2 := by
  intro h
  obtain ⟨hy, hmo, hd, hh, hmi, hs⟩ := snapshot_name_fields_inj h1 h2 h
  have e : t1.instantMicros - t2.instantMicros =
      (t1.microsecond : Int) - t2.microsecond := by
    simp only [Timestamp.instantMicros, hy, hmo, hd, hh, hmi, hs, hoff]
    ring
  rw [e] at hsec
  obtain ⟨-, -, -, -, -, -, -, -, -, b1, -, -⟩ := h1
  obtain ⟨-, -, -, -, -, -, -, -, -, b2, -, -⟩ := h2
  omega

/-- Witness for the amended C7: same offset, one second apart, names
distinct. -/
theorem C7_witness :
    tsOffsetA.valid ∧ tsSecLater.valid ∧
    tsOffsetA.tzOffsetMinutes = tsSecLater.tzOffsetMinutes ∧
    1000000 ≤ (tsOffsetA.instantMicros - tsSecLater.instantMicros).natAbs ∧
    _snapshot_name sampleDirectory tsOffsetA ≠
      _snapshot_name sampleDirectory tsSecLater :=
  ⟨by decide, by decide, rfl, by decide,
   C7_snapshot_name_unique sampleDirectory sampleDirectory tsOffsetA tsSecLater
     (by decide) (by decide) rfl (by decide)⟩

/-- C10: the synthetic dry-run Backup is appended based solely on the
dry-run flag — even with the snapshot phase disabled, the policy is asked
to classify a list containing the snapshot a real run would not have
created. -/
theorem C10_synthetic_regardless_of_snapshot_flag
    (directory : Directory) (context : TargetContext) (config : Config)
    (timestamp : Timestamp) (send_files : Bool) (rsyncExit : Int)
    (rotate : Rotator)
    (h1 : directory.rotate = some rotate) (h2 : rotate.should_rotate = none)
    (h3 : send_files = true → rsyncExit = 0) :
    Event.classify timestamp
        (context.list_backups directory.target_path ++
          [{ name := _snapshot_name directory timestamp, timestamp := timestamp }]) ∈
      (backup_directory_with_context directory context config timestamp
        true send_files false true rsyncExit).1 := by
  rw [backup_with_context_ok directory context config timestamp true send_files
    false true rsyncExit
    (fun hsf => by rw [send_files_snd, if_pos (Or.inl (h3 hsf))])]
  simp [rotate_snapshot_fired directory context timestamp true rotate h1 h2,
    rotationBackups]

/-- Witness for C10: dry run with snapshotting disabled still classifies
the synthetic backup. -/
theorem C10_witness :
    sampleDirectory.rotate = some sampleRotator ∧
    sampleRotator.should_rotate = none ∧
    Event.classify sampleTimestamp
        (sampleContext.list_backups sampleDirectory.target_path ++
          [{ name := _snapshot_name sampleDirectory sampleTimestamp,
             timestamp := sampleTimestamp }]) ∈
      (backup_directory_with_context sampleDirectory sampleContext sampleConfig
        sampleTimestamp true false false true 0).1 :=
  ⟨rfl, rfl,
   C10_synthetic_regardless_of_snapshot_flag sampleDirectory sampleContext
     sampleConfig sampleTimestamp false 0 sampleRotator rfl rfl
     (fun hsf => by cases hsf)⟩

/-- C2: a dry-run invocation issues no mutating command — no target-side
execution (mkdir, clone, chmod, rm) and no file write anywhere in the run —
while the rsync command is still run, carries `--dry-run`, and is the only
externally run command. -/
theorem C2_dry_run_no_mutation (directory : Directory) (context : TargetContext)
    (config : Config) (timestamp : Timestamp)
    (send_files create_snapshot rotate_snapshot : Bool) (rsyncExit : Int) :
    (∀ cmd, Event.exec cmd ∉
      (backup_directory_with_context directory context config timestamp
        true send_files create_snapshot rotate_snapshot rsyncExit).1) ∧
    (∀ path content, Event.writeFile path content ∉
      (backup_directory_with_context directory context config timestamp
        true send_files create_snapshot rotate_snapshot rsyncExit).1) ∧
    "--dry-run" ∈ rsyncCommand directory context config true ∧
    (send_files = true →
      Event.run (rsyncCommand directory context config true) ∈
        (backup_directory_with_context directory context config timestamp
          true send_files create_snapshot rotate_snapshot rsyncExit).1 ∧
      (∀ c, Event.run c ∈
          (backup_directory_with_context directory context config timestamp
            true send_files create_snapshot rotate_snapshot rsyncExit).1 →
        c = rsyncCommand directory context config true)) := by
  refine ⟨fun cmd hmem => ?_, fun path content hmem => ?_, ?_, fun hsf => ⟨?_, ?_⟩⟩
  · rcases backup_trace_events directory context config timestamp true send_files
      create_snapshot rotate_snapshot rsyncExit _ hmem with h | ⟨-, h⟩ | ⟨-, h⟩ | ⟨-, h⟩
    · simp at h
    · rcases send_files_events directory context config true rsyncExit _ h with
        ⟨l, m, h⟩ | ⟨hc, -⟩ | h
      · simp at h
      · exact absurd hc (by decide)
      · simp at h
    · rcases create_snapshot_events directory context timestamp true _ h with
        ⟨l, m, h⟩ | ⟨hc, -⟩
      · simp at h
      · exact absurd hc (by decide)
    · rcases rotate_snapshot_events directory context timestamp true _ h with
        ⟨l, m, h⟩ | ⟨ts, bs, h⟩ | ⟨hc, -⟩
      · simp at h
      · simp at h
      · exact absurd hc (by decide)
  · rcases backup_trace_events directory context config timestamp true send_files
      create_snapshot rotate_snapshot rsyncExit _ hmem with h | ⟨-, h⟩ | ⟨-, h⟩ | ⟨-, h⟩
    · simp at h
    · rcases send_files_events directory context config true rsyncExit _ h with
        ⟨l, m, h⟩ | ⟨hc, -⟩ | h
      · simp at h
      · exact absurd hc (by decide)
      · simp at h
    · rcases create_snapshot_events directory context timestamp true _ h with
        ⟨l, m, h⟩ | ⟨hc, -⟩
      · simp at h
      · exact absurd hc (by decide)
    · rcases rotate_snapshot_events directory context timestamp true _ h with
        ⟨l, m, h⟩ | ⟨ts, bs, h⟩ | ⟨hc, -⟩
      · simp at h
      · simp at h
      · exact absurd hc (by decide)
  · simp [rsyncCommand]
  · subst hsf
    cases hsd : (_send_files directory context config true rsyncExit).2 with
    | none =>
      rw [backup_with_context_ok directory context config timestamp true
        true create_snapshot rotate_snapshot rsyncExit (fun _ => hsd)]
      have hrun : Event.run (rsyncCommand directory context config true) ∈
          (_send_files directory context config true rsyncExit).1 :=
        (run_mem_send_iff directory context config true rsyncExit _).2 rfl
      simp [hrun]
    | some err =>
      rw [backup_with_context_err directory context config timestamp true
        create_snapshot rotate_snapshot rsyncExit err hsd]
      have hrun : Event.run (rsyncCommand directory context config true) ∈
          (_send_files directory context config true rsyncExit).1 :=
        (run_mem_send_iff directory context config true rsyncExit _).2 rfl
      simp [hrun]
  · subst hsf
    intro c hc
    rcases backup_trace_events directory context config timestamp true true
      create_snapshot rotate_snapshot rsyncExit _ hc with h | ⟨-, h⟩ | ⟨-, h⟩ | ⟨-, h⟩
    · simp at h
    · rcases send_files_events directory context config true rsyncExit _ h with
        ⟨l, m, h⟩ | ⟨hc2, -⟩ | h
      · simp at h
      · exact absurd hc2 (by decide)
      · simpa using h
    · rcases create_snapshot_events directory context timestamp true _ h with
        ⟨l, m, h⟩ | ⟨hc2, -⟩
      · simp at h
      · exact absurd hc2 (by decide)
    · rcases rotate_snapshot_events directory context timestamp true _ h with
        ⟨l, m, h⟩ | ⟨ts, bs, h⟩ | ⟨hc2, -⟩
      · simp at h
      · simp at h
      · exact absurd hc2 (by decide)

/-- Witness for C2: concrete dry run — no mutating events, and the rsync
command carries the dry-run flag. -/
theorem C2_witness :
    (true = true) ∧
    (Event.exec ["rm", "-rf", "/backups/home/snapshot-2024-03-01T00:00:00"] ∉
      (backup_directory_with_context sampleDirectory sampleContext sampleConfig
        sampleTimestamp true true true true 0).1) ∧
    "--dry-run" ∈ rsyncCommand sampleDirectory sampleContext sampleConfig true ∧
    Event.run (rsyncCommand sampleDirectory sampleContext sampleConfig true) ∈
      (backup_directory_with_context sampleDirectory sampleContext sampleConfig
        sampleTimestamp true true true true 0).1 :=
  ⟨rfl,
   (C2_dry_run_no_mutation sampleDirectory sampleContext sampleConfig
     sampleTimestamp true true true 0).1 _,
   (C2_dry_run_no_mutation sampleDirectory sampleContext sampleConfig
     sampleTimestamp true true true 0).2.2.1,
   ((C2_dry_run_no_mutation sampleDirectory sampleContext sampleConfig
     sampleTimestamp true true true 0).2.2.2 rfl).1⟩

/-- C6: with no exclude patterns, no exclude-file, one-file-system off,
minimal verbosity, a plain (local) target and no dry-run, the rsync command
is exactly the fixed flag list followed by the slash-terminated source and
destination — the destination being the fixed-name current mirror
subdirectory under the target path — with no `--one-file-system`, no
`--dry-run` and (per the listed equality) no exclude flags; that command is
the one and only externally run command of the phase. -/
theorem C6_rsync_command (directory : Directory) (context : TargetContext)
    (config : Config) (rsyncExit : Int)
    (hx : directory.exclude_files = [])
    (hf : directory.resolve_exclude_from = none)
    (ho : directory.one_file_system = false)
    (hv : config.verbosity = Verbosity.minimal)
    (ht : directory.target.rsync_arguments = fun p => (p, [])) :
    rsyncCommand directory context config false =
      ["rsync", "--human-readable", "--info=progress2,stats", "--delete-after",
       "--delete-excluded", "--acls", "--archive", "--hard-links", "--fuzzy",
       "--fuzzy", "--numeric-ids", "--xattrs",
       _ensure_trailing_slash directory.source_path,
       _ensure_trailing_slash
         (context.make_path (pathJoin directory.target_path CURRENT_SNAPSHOT_NAME))] ∧
    Event.run (rsyncCommand directory context config false) ∈
      (_send_files directory context config false rsyncExit).1 ∧
    (∀ c, Event.run c ∈ (_send_files directory context config false rsyncExit).1 →
      c = rsyncCommand directory context config false) ∧
    (_ensure_trailing_slash directory.source_path).data.getLast? = some '/' ∧
    (_ensure_trailing_slash
      (context.make_path (pathJoin directory.target_path
        CURRENT_SNAPSHOT_NAME))).data.getLast? = some '/' ∧
    "--one-file-system" ∉ rsyncCommand directory context config false ∧
    "--dry-run" ∉ rsyncCommand directory context config false := by
  have hcmd : rsyncCommand directory context config false =
      ["rsync", "--human-readable", "--info=progress2,stats", "--delete-after",
       "--delete-excluded", "--acls", "--archive", "--hard-links", "--fuzzy",
       "--fuzzy", "--numeric-ids", "--xattrs",
       _ensure_trailing_slash directory.source_path,
       _ensure_trailing_slash
         (context.make_path (pathJoin directory.target_path CURRENT_SNAPSHOT_NAME))] := by
    simp [rsyncCommand, hx, hf, ho, hv, ht]
  have hslash1 := ensure_trailing_slash_last directory.source_path
  have hslash2 := ensure_trailing_slash_last
    (context.make_path (pathJoin directory.target_path CURRENT_SNAPSHOT_NAME))
  refine ⟨hcmd, (run_mem_send_iff directory context config false rsyncExit _).2 rfl,
    fun c hc => (run_mem_send_iff directory context config false rsyncExit c).1 hc,
    hslash1, hslash2, ?_, ?_⟩
  · rw [hcmd]
    intro hmem
    simp only [List.mem_cons, List.mem_singleton, List.not_mem_nil, or_false] at hmem
    rcases hmem with h | h | h | h | h | h | h | h | h | h | h | h | h | h
    all_goals first
      | exact absurd h.symm (by decide)
      | exact absurd h (no_slash_ne (by decide) hslash1)
      | exact absurd h (no_slash_ne (by decide) hslash2)
  · rw [hcmd]
    intro hmem
    simp only [List.mem_cons, List.mem_singleton, List.not_mem_nil, or_false] at hmem
    rcases hmem with h | h | h | h | h | h | h | h | h | h | h | h | h | h
    all_goals first
      | exact absurd h.symm (by decide)
      | exact absurd h (no_slash_ne (by decide) hslash1)
      | exact absurd h (no_slash_ne (by decide) hslash2)

/-- Witness for C6 at the sample directory (local target, no excludes,
minimal verbosity). -/
theorem C6_witness :
    sampleDirectory.exclude_files = [] ∧
    sampleDirectory.resolve_exclude_from = none ∧
    sampleDirectory.one_file_system = false ∧
    sampleConfig.verbosity = Verbosity.minimal ∧
    rsyncCommand sampleDirectory sampleContext sampleConfig false =
      ["rsync", "--human-readable", "--info=progress2,stats", "--delete-after",
       "--delete-excluded", "--acls", "--archive", "--hard-links", "--fuzzy",
       "--fuzzy", "--numeric-ids", "--xattrs", "/home/",
       "/backups/home/current/"] :=
  ⟨rfl, rfl, rfl, rfl, by
    have h := (C6_rsync_command sampleDirectory sampleContext sampleConfig 0
      rfl rfl rfl rfl rfl).1
    rw [h]
    rfl⟩

/-- C3: in a non-dry-run rotation that fires, every backup classified drop
gets a recursive permission-relax immediately followed by a recursive
remove of its path (in that order); every executed command is the chmod or
rm of some drop-classified backup, so a backup classified keep — whose
resolved path differs from every drop path — is never the object of any
command. -/
theorem C3_rotation_drop_commands (directory : Directory)
    (context : TargetContext) (timestamp : Timestamp) (rotate : Rotator)
    (h1 : directory.rotate = some rotate) (h2 : rotate.should_rotate = none) :
    (∀ b expl,
      (b, Verdict.drop, expl) ∈ rotate.rotate_backups timestamp
        (rotationBackups directory context timestamp false) →
      [Event.exec ["chmod", "-R", "u+wX",
         context.make_path (pathJoin directory.target_path b.name)],
       Event.exec ["rm", "-rf",
         context.make_path (pathJoin directory.target_path b.name)]] <:+:
        _rotate_snapshot directory context timestamp false) ∧
    (∀ cmd, Event.exec cmd ∈ _rotate_snapshot directory context timestamp false →
      ∃ b expl, (b, Verdict.drop, expl) ∈ rotate.rotate_backups timestamp
          (rotationBackups directory context timestamp false) ∧
        (cmd = ["chmod", "-R", "u+wX",
           context.make_path (pathJoin directory.target_path b.name)] ∨
         cmd = ["rm", "-rf",
           context.make_path (pathJoin directory.target_path b.name)])) ∧
    (∀ b expl, (b, Verdict.keep, expl) ∈ rotate.rotate_backups timestamp
        (rotationBackups directory context timestamp false) →
      (∀ b2 expl2, (b2, Verdict.drop, expl2) ∈ rotate.rotate_backups timestamp
          (rotationBackups directory context timestamp false) →
        context.make_path (pathJoin directory.target_path b2.name) ≠
          context.make_path (pathJoin directory.target_path b.name)) →
      ∀ cmd, Event.exec cmd ∈ _rotate_snapshot directory context timestamp false →
        cmd.getLast? ≠
          some (context.make_path (pathJoin directory.target_path b.name))) := by
  have hexec : ∀ cmd,
      Event.exec cmd ∈ _rotate_snapshot directory context timestamp false →
      ∃ b expl, (b, Verdict.drop, expl) ∈ rotate.rotate_backups timestamp
          (rotationBackups directory context timestamp false) ∧
        (cmd = ["chmod", "-R", "u+wX",
           context.make_path (pathJoin directory.target_path b.name)] ∨
         cmd = ["rm", "-rf",
           context.make_path (pathJoin directory.target_path b.name)]) := by
    intro cmd hc
    rcases rotate_snapshot_events directory context timestamp false _ hc with
      ⟨l, m, h⟩ | ⟨ts, bs, h⟩ | ⟨-, rot2, b, expl, hrot2, hm, hcmds⟩
    · simp at h
    · simp at h
    · rw [h1] at hrot2
      have hre : rotate = rot2 := by injection hrot2
      subst hre
      refine ⟨b, expl, hm, ?_⟩
      rcases hcmds with h | h
      · exact Or.inl (by simpa using h)
      · exact Or.inr (by simpa using h)
  refine ⟨?_, hexec, ?_⟩
  · intro b expl hmem
    rw [rotate_snapshot_fired directory context timestamp false rotate h1 h2]
    have h3 : (b, Verdict.drop, expl) ∈
        (rotate.rotate_backups timestamp
          (rotationBackups directory context timestamp false)).mergeSort resultLe :=
      List.mem_mergeSort.2 hmem
    have h4 := flatMap_infix_of_mem (rotateEntryEvents directory context false) h3
    have h5 : rotateEntryEvents directory context false (b, Verdict.drop, expl) =
        [Event.log Level.info
          ("  - " ++ b.name ++ ": " ++ Verdict.drop.vname ++ ". " ++ expl)] ++
        [Event.exec ["chmod", "-R", "u+wX",
           context.make_path (pathJoin directory.target_path b.name)],
         Event.exec ["rm", "-rf",
           context.make_path (pathJoin directory.target_path b.name)]] := rfl
    rw [h5] at h4
    exact (((List.suffix_append _ _).isInfix).trans h4).trans
      (List.suffix_append _ _).isInfix
  · intro b expl hkeep hdist cmd hc
    obtain ⟨b2, expl2, hm2, hcmd2⟩ := hexec cmd hc
    rcases hcmd2 with rfl | rfl
    · intro hlast
      have : context.make_path (pathJoin directory.target_path b2.name) =
          context.make_path (pathJoin directory.target_path b.name) := by
        simpa using hlast
      exact hdist b2 expl2 hm2 this
    · intro hlast
      have : context.make_path (pathJoin directory.target_path b2.name) =
          context.make_path (pathJoin directory.target_path b.name) := by
        simpa using hlast
      exact hdist b2 expl2 hm2 this

/-- Witness for C3: the sample rotator drops `oldBackup`; chmod-then-rm on
its path is an infix of the rotation trace. -/
theorem C3_witness :
    sampleDirectory.rotate = some sampleRotator ∧
    sampleRotator.should_rotate = none ∧
    (oldBackup, Verdict.drop, "too old") ∈ sampleRotator.rotate_backups
      sampleTimestamp (rotationBackups sampleDirectory sampleContext
        sampleTimestamp false) ∧
    [Event.exec ["chmod", "-R", "u+wX",
       sampleContext.make_path (pathJoin sampleDirectory.target_path oldBackup.name)],
     Event.exec ["rm", "-rf",
       sampleContext.make_path (pathJoin sampleDirectory.target_path oldBackup.name)]] <:+:
      _rotate_snapshot sampleDirectory sampleContext sampleTimestamp false :=
  ⟨rfl, rfl, by decide,
   (C3_rotation_drop_commands sampleDirectory sampleContext sampleTimestamp
     sampleRotator rfl rfl).1 oldBackup "too old" (by decide)⟩

/-- C4: the orchestrator runs the enabled phases in the fixed order
send → snapshot → rotate, each gated only by its own flag; a send-phase
failure propagates at once, so snapshot and rotation events never occur;
and with rotation disabled no recursive-remove command is ever issued. -/
theorem C4_orchestrator_order_and_gating (directory : Directory)
    (context : TargetContext) (config : Config) (timestamp : Timestamp)
    (dry_run send_files create_snapshot rotate_snapshot : Bool) (rsyncExit : Int) :
    ((send_files = true →
        (_send_files directory context config dry_run rsyncExit).2 = none) →
      backup_directory_with_context directory context config timestamp
          dry_run send_files create_snapshot rotate_snapshot rsyncExit =
        ([Event.log Level.message ("Backing up " ++ directory.descr)] ++
          (if send_files then (_send_files directory context config dry_run rsyncExit).1
           else []) ++
          (if create_snapshot then _create_snapshot directory context timestamp dry_run
           else []) ++
          (if rotate_snapshot then _rotate_snapshot directory context timestamp dry_run
           else []),
         none)) ∧
    (∀ e, send_files = true →
      (_send_files directory context config dry_run rsyncExit).2 = some e →
      backup_directory_with_context directory context config timestamp
          dry_run send_files create_snapshot rotate_snapshot rsyncExit =
        ([Event.log Level.message ("Backing up " ++ directory.descr)] ++
          (_send_files directory context config dry_run rsyncExit).1, some e)) ∧
    (rotate_snapshot = false →
      ∀ cmd, Event.exec cmd ∈ (backup_directory_with_context directory context
          config timestamp dry_run send_files create_snapshot rotate_snapshot
          rsyncExit).1 →
        cmd.head? ≠ some "rm") := by
  refine ⟨backup_with_context_ok directory context config timestamp dry_run
      send_files create_snapshot rotate_snapshot rsyncExit,
    fun e hsf hsome => ?_, fun hrs cmd hmem => ?_⟩
  · subst hsf
    exact backup_with_context_err directory context config timestamp dry_run
      create_snapshot rotate_snapshot rsyncExit e hsome
  · rcases backup_trace_events directory context config timestamp dry_run
      send_files create_snapshot rotate_snapshot rsyncExit _ hmem with
      h | ⟨-, h⟩ | ⟨-, h⟩ | ⟨hb, h⟩
    · simp at h
    · rcases send_files_events directory context config dry_run rsyncExit _ h with
        ⟨l, m, h⟩ | ⟨-, h⟩ | h
      · simp at h
      · have hc : cmd = ["mkdir", "-p", context.make_path directory.target_path] := by
          simpa using h
        subst hc
        simp
      · simp at h
    · rcases create_snapshot_events directory context timestamp dry_run _ h with
        ⟨l, m, h⟩ | ⟨-, h | h⟩
      · simp at h
      · have hc : cmd = cloneCommand directory context timestamp := by
          simpa using h
        subst hc
        simp [cloneCommand]
      · simp at h
    · rw [hrs] at hb
      exact absurd hb (by decide)

/-- Witness for C4: a clean run decomposes into the three phases; exit
code 11 aborts after the send phase. -/
theorem C4_witness :
    ((true = true →
        (_send_files sampleDirectory sampleContext sampleConfig false 0).2 = none) ∧
      backup_directory_with_context sampleDirectory sampleContext sampleConfig
          sampleTimestamp false true true true 0 =
        ([Event.log Level.message ("Backing up " ++ sampleDirectory.descr)] ++
          (if true then (_send_files sampleDirectory sampleContext sampleConfig false 0).1
           else []) ++
          (if true then _create_snapshot sampleDirectory sampleContext sampleTimestamp false
           else []) ++
          (if true then _rotate_snapshot sampleDirectory sampleContext sampleTimestamp false
           else []),
         none)) ∧
    ((_send_files sampleDirectory sampleContext sampleConfig false 11).2 =
      some { message := "rsync call failed", code := 11 } ∧
      backup_directory_with_context sampleDirectory sampleContext sampleConfig
          sampleTimestamp false true true true 11 =
        ([Event.log Level.message ("Backing up " ++ sampleDirectory.descr)] ++
          (_send_files sampleDirectory sampleContext sampleConfig false 11).1,
         some { message := "rsync call failed", code := 11 })) :=
  ⟨⟨fun _ => by decide,
    (C4_orchestrator_order_and_gating sampleDirectory sampleContext sampleConfig
      sampleTimestamp false true true true 0).1 (fun _ => by decide)⟩,
   ⟨by decide,
    (C4_orchestrator_order_and_gating sampleDirectory sampleContext sampleConfig
      sampleTimestamp false true true true 11).2.1
      { message := "rsync call failed", code := 11 } rfl (by decide)⟩⟩

end Ryba
